import Mathlib

/-!
Shallow embedding of the authorization core of the Coffee-Shop backend
(`src/backend/src/auth/auth.py`, composed at the boundary by
`src/backend/src/api.py`).

The embedding models each Python function of `auth.py` as a pure Lean
function.  Exception-based control flow becomes an `Except` value whose
error side distinguishes the repository's tagged `AuthError` from raw,
uncaught Python exceptions (`IndexError`, a propagated transport error,
...), since the two behave differently at the request boundary:
`api.py` has an `errorhandler` only for `AuthError`.
-/

namespace CoffeeShop

/-- Module-level constant `AUTH0_DOMAIN` of auth.py (line 8). -/
def AUTH0_DOMAIN : String := "starbucks-app.eu.auth0.com"

/-- Module-level constant `ALGORITHMS` of auth.py (line 11). -/
def ALGORITHMS : List String := ["RS256"]

/-- Module-level constant `API_AUDIENCE` of auth.py (line 12). -/
def API_AUDIENCE : String := "coffee"

/-- The expected issuer string passed to `jwt.decode` (line 130):
`"https://" + AUTH0_DOMAIN + "/"`. -/
def EXPECTED_ISSUER : String := "https://" ++ AUTH0_DOMAIN ++ "/"

/-- The first positional argument of the `AuthError` constructor: either a
dict with a `code` and a `description` field, or (in `check_permissions`,
line 76) a bare string. -/
inductive ErrVal where
  | dict (code : Nat) (description : String)
  | strVal (s : String)
deriving DecidableEq, Repr

/-- The `AuthError` exception of auth.py (lines 23-26): a payload `error`
plus an HTTP `status_code`.  `api.py`'s errorhandler (lines 180-186)
renders exactly `status_code` as the response status. -/
structure AuthError where
  error : ErrVal
  status_code : Nat
deriving DecidableEq, Repr

/-- How a step of the pipeline fails: either a tagged `AuthError` raised
by auth.py (caught by the `errorhandler` in api.py), or a raw Python
exception that no code in the repository catches (named by its Python
class; Flask's default handling turns it into a generic 500). -/
inductive Failure where
  | auth (e : AuthError)
  | py (exnClass : String)
deriving DecidableEq, Repr

deriving instance DecidableEq for Except

/-- A value stored under a claim name in a decoded JWT payload. -/
inductive ClaimValue where
  | str (s : String)
  | num (n : Int)
  | strList (xs : List String)
deriving DecidableEq, Repr

/-- A decoded JWT payload: a Python dict from claim names to values
(keys unique, first binding wins on lookup). -/
abbrev Payload := List (String × ClaimValue)

/-- Dict lookup (`payload['permissions']`, `'permissions' in payload`). -/
def payloadLookup (k : String) (p : Payload) : Option ClaimValue :=
  match p with
  | [] => none
  | (k', v) :: rest => if k' == k then some v else payloadLookup k rest

/-- Python substring test `x in s` for strings. -/
def pyInStr (x s : String) : Bool :=
  x.isEmpty || 2 ≤ (s.splitOn x).length

/-- Python's `x in v` membership test against a claim value:
list membership for a list, substring for a string, and a `TypeError`
(uncaught by the repository) for a number. -/
def pyIn (x : String) : ClaimValue → Except Failure Bool
  | .strList xs => .ok (xs.contains x)
  | .str s => .ok (pyInStr x s)
  | .num _ => .error (.py "TypeError")

/-- Python `str.split()` with no separator: split on every whitespace
character and drop the empty pieces, so runs of whitespace collapse and
an empty or all-whitespace string yields `[]`. -/
def pySplit (s : String) : List String :=
  (s.split Char.isWhitespace).filter (fun piece => piece ≠ "")

/-- Python `str.lower()`, character by character (the header values at
stake are ASCII). -/
def pyLower (s : String) : String := String.mk (s.data.map Char.toLower)

/-- The tagged failure of auth.py lines 39-42 (spec kind MissingHeader). -/
def missingHeaderErr : AuthError := ⟨.dict 401 "Missing authorization header.", 401⟩

/-- The tagged failure of auth.py lines 47-50 (spec kind MalformedScheme). -/
def malformedSchemeErr : AuthError :=
  ⟨.dict 401 "Authorization header must start with \"Bearer\".", 401⟩

/-- The tagged failure of auth.py lines 54-57 (spec kind MalformedHeader). -/
def malformedHeaderErr : AuthError := ⟨.dict 402 "Invalid form of autherization token", 401⟩

/-- The tagged failure of auth.py line 76 (spec kind PermissionsClaimMissing). -/
def permissionsMissingErr : AuthError := ⟨.strVal "Permissions not included in JWT", 400⟩

/-- The tagged failure of auth.py lines 79-82 (spec kind PermissionDenied). -/
def permissionDeniedErr : AuthError := ⟨.dict 401 "Unautherized to use the service.", 401⟩

/-- The tagged failure of auth.py lines 105-108 (spec kind MissingKeyId). -/
def missingKidErr : AuthError := ⟨.dict 401 "Missing argument.", 401⟩

/-- The tagged failure of auth.py lines 136-139 (spec kind TokenExpired). -/
def tokenExpiredErr : AuthError := ⟨.dict 401 "Token has expired.", 401⟩

/-- The tagged failure of auth.py lines 143-146 (spec kind ClaimsInvalid). -/
def claimsInvalidErr : AuthError :=
  ⟨.dict 401 "Incorrect claims. Please, check the audience and issuer.", 401⟩

/-- The tagged failure of auth.py lines 150-153 (spec kind TokenUnparseable). -/
def tokenUnparseableErr : AuthError := ⟨.dict 400 "Unable to parse authentication token.", 400⟩

/-- The tagged failure of auth.py lines 156-159 (spec kind NoTokenProvided). -/
def noTokenProvidedErr : AuthError := ⟨.dict 400 "No token was provided.", 400⟩

/-- `get_token_auth_header` (auth.py lines 34-60), with the request's
`Authorization` header value passed explicitly (`request.headers.get`
returns `None` when absent).  `authorization_header.split()` is
`pySplit`; indexing `auth_header_components[0]` on an empty split raises
an uncaught `IndexError`.  With the split of shape `c0 :: rest`, the
source's `len(...) != 2` test is equivalent to `rest` not being a
singleton, and `auth_header_components[1]` is that singleton's element. -/
def get_token_auth_header (authHeader : Option String) : Except Failure String :=
  match authHeader with
  | none => .error (.auth missingHeaderErr)
  | some h =>
    match pySplit h with
    | [] => .error (.py "IndexError")
    | c0 :: rest =>
      if pyLower c0 == "bearer" then
        match rest with
        | [t] => .ok t
        | _ => .error (.auth malformedHeaderErr)
      else .error (.auth malformedSchemeErr)

/-- `check_permissions` (auth.py lines 73-84): raise if `permissions` is
not a key of the payload dict, raise if the required permission string is
not a member of the `permissions` value, otherwise return `True`. -/
def check_permissions (permission : String) (payload : Payload) : Except Failure Bool :=
  match payloadLookup "permissions" payload with
  | none => .error (.auth permissionsMissingErr)
  | some v =>
    match pyIn permission v with
    | .error e => .error e
    | .ok true => .ok true
    | .ok false => .error (.auth permissionDeniedErr)

/-- One entry of the fetched JSON Web Key Set; `verify_decode_jwt` copies
exactly these five fields out of a matching entry (lines 114-120). -/
structure JWKSKey where
  kty : String
  kid : String
  use : String
  n : String
  e : String
deriving DecidableEq, Repr

/-- The body fetched from `/.well-known/jwks.json`: `jwks['keys']`. -/
structure JWKS where
  keys : List JWKSKey
deriving DecidableEq, Repr

/-- Abstraction of a token string as the facts `jose.jwt` determines
about it.  `headerParseable` is whether `get_unverified_header` succeeds;
`headerKid` its declared key id; `alg` its declared algorithm;
`bodyWellFormed` whether the payload/signature segments parse;
`sigGenuine`, `sigN`, `sigE` describe the (unique) RSA public key the
signature actually verifies under; `exp`, `aud`, `iss` the registered
claims; `claims` the decoded payload. -/
structure TokenModel where
  headerParseable : Bool
  headerKid : Option String
  alg : String
  bodyWellFormed : Bool
  sigGenuine : Bool
  sigN : String
  sigE : String
  exp : Nat
  aud : String
  iss : String
  claims : Payload
deriving DecidableEq, Repr

/-- Modelled from the spec: `jose.jwt.get_unverified_header` (an external
library call, no source in this repository) parses the token's header
segment without verification, raising on a malformed token. -/
def getUnverifiedHeader (t : TokenModel) : Except Unit (Option String) :=
  if t.headerParseable then .ok t.headerKid else .error ()

/-- Outcome of the external `jose.jwt.decode` call as the repository's
`except` clauses distinguish it: success, `ExpiredSignatureError`,
`JWTClaimsError`, or any other exception. -/
inductive DecodeOutcome where
  | ok (payload : Payload)
  | expired
  | claimsError
  | otherError
deriving DecidableEq, Repr

/-- Modelled from the spec: `jose.jwt.decode` (an external library call,
no source in this repository), per spec section 4.3: verify the signature
using only the algorithms in `algs` and the given key; fail generically
on malformed structure, a wrong algorithm, or a bad signature; report
expiry when the `exp` claim is earlier than the current time (no leeway);
report a claims error when audience or issuer mismatch; otherwise return
the decoded payload. -/
def jwtDecode (t : TokenModel) (key : JWKSKey) (algs : List String)
    (audience : String) (issuer : String) (now : Nat) : DecodeOutcome :=
  if ¬ t.bodyWellFormed then .otherError
  else if ¬ algs.contains t.alg then .otherError
  else if ¬ (t.sigGenuine ∧ t.sigN = key.n ∧ t.sigE = key.e) then .otherError
  else if t.exp < now then .expired
  else if t.aud ≠ audience ∨ t.iss ≠ issuer then .claimsError
  else .ok t.claims

/-- The key-matching loop of auth.py lines 110-121: start from the empty
dict, overwrite `RSA_key` with the five copied fields on every entry
whose `kid` equals the token's, never break.  `none` plays the empty
dict (the copied dict always has five keys, hence is truthy). -/
def selectKey (keys : List JWKSKey) (kid : String) : Option JWKSKey :=
  keys.foldl
    (fun acc key =>
      if key.kid == kid then some ⟨key.kty, key.kid, key.use, key.n, key.e⟩ else acc)
    none

/-- `verify_decode_jwt` (auth.py lines 98-159).  The key-set fetch result
and the current time are explicit inputs.  A failing `urlopen` raises a
transport error that nothing in the repository catches; a token whose
header does not parse makes `get_unverified_header` (line 102, outside
the `try`) raise uncaught as well.  A header without `kid` raises the
tagged 401; an empty `RSA_key` after the loop skips decoding and raises
the tagged 400 at line 156. -/
def verify_decode_jwt (fetch : Except Unit JWKS) (t : TokenModel) (now : Nat) :
    Except Failure Payload :=
  match fetch with
  | .error _ => .error (.py "URLError")
  | .ok jwks =>
    match getUnverifiedHeader t with
    | .error _ => .error (.py "JWTError")
    | .ok none => .error (.auth missingKidErr)
    | .ok (some kid) =>
      match selectKey jwks.keys kid with
      | some key =>
        match jwtDecode t key ALGORITHMS API_AUDIENCE EXPECTED_ISSUER now with
        | .ok payload => .ok payload
        | .expired => .error (.auth tokenExpiredErr)
        | .claimsError => .error (.auth claimsInvalidErr)
        | .otherError => .error (.auth tokenUnparseableErr)
      | none => .error (.auth noTokenProvidedErr)

/-- `requires_auth` (auth.py lines 173-184) composed with how api.py uses
it: the wrapper extracts the token, verifies it, checks the permission,
then calls the protected operation `f` with the payload.  `parse` is the
ambient reading of a token string as the facts `jose` determines about
it; any raised failure propagates and `f` never runs. -/
def requires_auth {α : Type} (permission : String) (parse : String → TokenModel)
    (fetch : Except Unit JWKS) (now : Nat) (f : Payload → α)
    (authHeader : Option String) : Except Failure α :=
  match get_token_auth_header authHeader with
  | .error e => .error e
  | .ok token =>
    match verify_decode_jwt fetch (parse token) now with
    | .error e => .error e
    | .ok payload =>
      match check_permissions permission payload with
      | .error e => .error e
      | .ok _ => .ok (f payload)

/-- Whether a pipeline outcome is a tagged `AuthError` failure (one the
`errorhandler` in api.py lines 180-186 will see). -/
def isTaggedFailure {α : Type} : Except Failure α → Bool
  | .error (.auth _) => true
  | _ => false

/-! ### Helper lemmas -/

/-- Computation rule for `pySplit` in terms of `List.splitOnP`, via
`String.split_of_valid`; this makes `pySplit` evaluable on concrete
strings by the kernel. -/
theorem pySplit_eq (s : String) :
    pySplit s =
      ((List.splitOnP Char.isWhitespace s.data).map String.mk).filter
        (fun piece => piece ≠ "") := by
  unfold pySplit
  rw [String.split_of_valid]

/-- Splitting a list of characters that are all whitespace produces only
empty pieces. -/
theorem splitOnP_all_whitespace (cs : List Char)
    (h : ∀ c ∈ cs, Char.isWhitespace c = true) :
    ∀ l ∈ List.splitOnP Char.isWhitespace cs, l = [] := by
  induction cs with
  | nil =>
    intro l hl
    rw [List.splitOnP_nil] at hl
    simpa using hl
  | cons x xs ih =>
    intro l hl
    rw [List.splitOnP_cons, if_pos (h x (List.mem_cons_self x xs))] at hl
    rcases List.mem_cons.mp hl with h1 | h2
    · exact h1
    · exact ih (fun c hc => h c (List.mem_cons_of_mem x hc)) l h2

/-- A header value made of only whitespace characters (the empty value
included) splits to the empty list under Python `str.split()`. -/
theorem pySplit_eq_nil_of_whitespace (s : String)
    (h : ∀ c ∈ s.data, Char.isWhitespace c = true) : pySplit s = [] := by
  rw [pySplit_eq]
  rw [List.filter_eq_nil_iff]
  intro a ha
  rcases List.mem_map.mp ha with ⟨l, hl, rfl⟩
  have : l = [] := splitOnP_all_whitespace s.data h l hl
  subst this
  simp

/-- The key-matching fold, for any starting accumulator, returns the last
matching entry of the list when one exists and the accumulator otherwise.
The five-field copy rebuilt inside the loop is definitionally the matched
entry itself. -/
theorem selectKey_foldl (kid : String) (keys : List JWKSKey) :
    ∀ acc : Option JWKSKey,
      keys.foldl
        (fun acc key =>
          if key.kid == kid then some ⟨key.kty, key.kid, key.use, key.n, key.e⟩ else acc)
        acc =
      match keys.reverse.find? (fun k => k.kid == kid) with
      | some r => some r
      | none => acc := by
  induction keys with
  | nil => intro acc; rfl
  | cons k ks ih =>
    intro acc
    rw [List.foldl_cons, ih]
    have happ :
        (k :: ks).reverse.find? (fun k' => k'.kid == kid) =
          ((ks.reverse.find? (fun k' => k'.kid == kid)).or
            ([k].find? (fun k' => k'.kid == kid))) := by
      rw [List.reverse_cons, List.find?_append]
    rw [happ]
    cases hfind : ks.reverse.find? (fun k' => k'.kid == kid) with
    | some r => rfl
    | none =>
      simp only [Option.or]
      cases hk : (k.kid == kid) with
      | true => simp [List.find?, hk]
      | false => simp [List.find?, hk]

/-- `selectKey` returns the last entry of the key set whose `kid` matches
(or `none` when no entry matches). -/
theorem selectKey_eq_last_match (keys : List JWKSKey) (kid : String) :
    selectKey keys kid = keys.reverse.find? (fun k => k.kid == kid) := by
  unfold selectKey
  rw [selectKey_foldl]
  cases keys.reverse.find? (fun k => k.kid == kid) <;> rfl

/-- `find?` returns the head of the filtered list. -/
theorem find?_eq_filter_head? {α : Type} (p : α → Bool) (l : List α) :
    l.find? p = (l.filter p).head? := by
  induction l with
  | nil => rfl
  | cons a as ih =>
    by_cases h : p a
    · rw [List.find?_cons_of_pos _ h, List.filter_cons_of_pos h]
      rfl
    · rw [List.find?_cons_of_neg _ (by simpa using h),
        List.filter_cons_of_neg (by simpa using h), ih]

/-! ### Claim theorems -/

/-- C1: for every incoming request whose metadata contains no
`Authorization` entry, the gate fails with the MissingHeader failure
(`missingHeaderErr`, status 401).  The outcome is the same constant for
every protected operation `f`, so the protected operation is never
invoked. -/
theorem C1_missing_header_short_circuits {α : Type} (permission : String)
    (parse : String → TokenModel) (fetch : Except Unit JWKS) (now : Nat)
    (f : Payload → α) :
    requires_auth permission parse fetch now f none =
      Except.error (Failure.auth missingHeaderErr) ∧
    missingHeaderErr.status_code = 401 :=
  ⟨rfl, rfl⟩

/-- C2: `check_permissions` fails with PermissionsClaimMissing (status
400) when the payload has no `permissions` key, fails with
PermissionDenied (status 401) when the required permission is not a
member of the `permissions` sequence, and succeeds otherwise. -/
theorem C2_check_permissions_cases (permission : String) (payload : Payload)
    (xs : List String) :
    (payloadLookup "permissions" payload = none →
      check_permissions permission payload =
        Except.error (Failure.auth permissionsMissingErr) ∧
      permissionsMissingErr.status_code = 400) ∧
    (payloadLookup "permissions" payload = some (ClaimValue.strList xs) →
      permission ∉ xs →
      check_permissions permission payload =
        Except.error (Failure.auth permissionDeniedErr) ∧
      permissionDeniedErr.status_code = 401) ∧
    (payloadLookup "permissions" payload = some (ClaimValue.strList xs) →
      permission ∈ xs →
      check_permissions permission payload = Except.ok true) := by
  refine ⟨fun h => ⟨?_, rfl⟩, fun h hmem => ⟨?_, rfl⟩, fun h hmem => ?_⟩
  · simp [check_permissions, h]
  · simp [check_permissions, h, pyIn, hmem]
  · simp [check_permissions, h, pyIn, hmem]

/-- Closed instance of `C2_check_permissions_cases` at concrete payloads:
a payload without `permissions`, one whose sequence lacks the required
permission, and one containing it. -/
theorem C2_check_permissions_witness :
    check_permissions "post:drinks" [] =
      Except.error (Failure.auth permissionsMissingErr) ∧
    check_permissions "post:drinks"
        [("permissions", ClaimValue.strList ["get:drinks-detail"])] =
      Except.error (Failure.auth permissionDeniedErr) ∧
    check_permissions "get:drinks-detail"
        [("permissions", ClaimValue.strList ["get:drinks-detail"])] =
      Except.ok true :=
  ⟨((C2_check_permissions_cases "post:drinks" [] []).1 (by decide)).1,
    ((C2_check_permissions_cases "post:drinks"
        [("permissions", ClaimValue.strList ["get:drinks-detail"])]
        ["get:drinks-detail"]).2.1 (by decide) (by decide)).1,
    (C2_check_permissions_cases "get:drinks-detail"
        [("permissions", ClaimValue.strList ["get:drinks-detail"])]
        ["get:drinks-detail"]).2.2 (by decide) (by decide)⟩

/-- C4 counterexample: the empty string is a present `Authorization`
value on which the extractor raises an uncaught `IndexError` (the
whitespace split is empty and `components[0]` is out of bounds), not the
tagged MalformedScheme or MalformedHeader failure the claim requires for
every present value. -/
theorem C4_counterexample_empty_value :
    get_token_auth_header (some "") = Except.error (Failure.py "IndexError") ∧
    isTaggedFailure (get_token_auth_header (some "")) = false := by
  have h : pySplit "" = [] := by rw [pySplit_eq]; decide
  exact ⟨by simp [get_token_auth_header, h], by simp [get_token_auth_header, h, isTaggedFailure]⟩

/-- C4 (amended): for every present `Authorization` value whose
whitespace split is nonempty, the extractor fails with MalformedScheme
when the first token is not `Bearer` case-insensitively, fails with
MalformedHeader when the split does not have exactly two tokens, and
otherwise returns the second token unchanged. -/
theorem C4_amended_extractor_cases (h : String) (c0 : String) (rest : List String)
    (hsplit : pySplit h = c0 :: rest) :
    (pyLower c0 ≠ "bearer" →
      get_token_auth_header (some h) = Except.error (Failure.auth malformedSchemeErr)) ∧
    (pyLower c0 = "bearer" → (c0 :: rest).length ≠ 2 →
      get_token_auth_header (some h) = Except.error (Failure.auth malformedHeaderErr)) ∧
    (∀ t, pyLower c0 = "bearer" → rest = [t] →
      get_token_auth_header (some h) = Except.ok t) := by
  refine ⟨fun hne => ?_, fun hb hlen => ?_, fun t hb hrest => ?_⟩
  · simp [get_token_auth_header, hsplit, hne]
  · rcases rest with _ | ⟨a, _ | ⟨b, rs⟩⟩
    · simp [get_token_auth_header, hsplit, hb]
    · exact absurd rfl hlen
    · simp [get_token_auth_header, hsplit, hb]
  · subst hrest
    simp [get_token_auth_header, hsplit, hb]

/-- Closed instance of `C4_amended_extractor_cases` at a wrong-scheme
header, a three-component header, and a well-formed header. -/
theorem C4_amended_witness :
    get_token_auth_header (some "Token abc123") =
      Except.error (Failure.auth malformedSchemeErr) ∧
    get_token_auth_header (some "Bearer a b") =
      Except.error (Failure.auth malformedHeaderErr) ∧
    get_token_auth_header (some "Bearer tok") = Except.ok "tok" := by
  have h1 : pySplit "Token abc123" = ["Token", "abc123"] := by rw [pySplit_eq]; decide
  have h2 : pySplit "Bearer a b" = ["Bearer", "a", "b"] := by rw [pySplit_eq]; decide
  have h3 : pySplit "Bearer tok" = ["Bearer", "tok"] := by rw [pySplit_eq]; decide
  exact ⟨(C4_amended_extractor_cases _ _ _ h1).1 (by decide),
    (C4_amended_extractor_cases _ _ _ h2).2.1 (by decide) (by decide),
    (C4_amended_extractor_cases _ _ _ h3).2.2 "tok" (by decide) rfl⟩

/-- C9: a present `Authorization` value that is empty or all whitespace
splits to the empty sequence, and the extractor then raises an uncaught
Python `IndexError` rather than any tagged `AuthError`. -/
theorem C9_whitespace_header_index_error (s : String)
    (h : ∀ c ∈ s.data, Char.isWhitespace c = true) :
    pySplit s = [] ∧
    get_token_auth_header (some s) = Except.error (Failure.py "IndexError") ∧
    isTaggedFailure (get_token_auth_header (some s)) = false := by
  have hnil := pySplit_eq_nil_of_whitespace s h
  exact ⟨hnil, by simp [get_token_auth_header, hnil],
    by simp [get_token_auth_header, hnil, isTaggedFailure]⟩

/-- Closed instance of `C9_whitespace_header_index_error` at the
one-space header value. -/
theorem C9_witness :
    pySplit " " = [] ∧
    get_token_auth_header (some " ") = Except.error (Failure.py "IndexError") ∧
    isTaggedFailure (get_token_auth_header (some " ")) = false :=
  C9_whitespace_header_index_error " " (by decide)

/-- C3: when the token's header parses, declares a key id, and that key
id matches a key of the key set, every decode failure other than expiry
and an audience/issuer mismatch — malformed token body, an algorithm
other than RS256, or an invalid signature — makes `verify_decode_jwt`
fail with TokenUnparseable, status 400. -/
theorem C3_other_errors_unparseable (jwks : JWKS) (t : TokenModel) (now : Nat)
    (kid : String) (key : JWKSKey)
    (hhdr : t.headerParseable = true) (hkid : t.headerKid = some kid)
    (hmatch : selectKey jwks.keys kid = some key)
    (herr : t.bodyWellFormed = false ∨ t.alg ≠ "RS256" ∨
      ¬ (t.sigGenuine = true ∧ t.sigN = key.n ∧ t.sigE = key.e)) :
    verify_decode_jwt (Except.ok jwks) t now =
      Except.error (Failure.auth tokenUnparseableErr) ∧
    tokenUnparseableErr.status_code = 400 := by
  refine ⟨?_, rfl⟩
  have hdec : jwtDecode t key ALGORITHMS API_AUDIENCE EXPECTED_ISSUER now
      = DecodeOutcome.otherError := by
    unfold jwtDecode
    rcases herr with hb | ha | hs
    · rw [if_pos (by simp [hb])]
    · by_cases hbw : t.bodyWellFormed = true
      · rw [if_neg (not_not_intro hbw), if_pos (by simp [ALGORITHMS, ha])]
      · rw [if_pos hbw]
    · by_cases hbw : t.bodyWellFormed = true
      · by_cases halg : ALGORITHMS.contains t.alg = true
        · rw [if_neg (not_not_intro hbw), if_neg (not_not_intro halg), if_pos hs]
        · rw [if_neg (not_not_intro hbw), if_pos halg]
      · rw [if_pos hbw]
  simp [verify_decode_jwt, getUnverifiedHeader, hhdr, hkid, hmatch, hdec]

/-- Closed instance of `C3_other_errors_unparseable`: a token declaring
algorithm HS256 whose key id matches, rejected as TokenUnparseable. -/
theorem C3_witness :
    verify_decode_jwt (Except.ok ⟨[⟨"RSA", "k1", "sig", "n1", "e1"⟩]⟩)
        ⟨true, some "k1", "HS256", true, true, "n1", "e1", 100, "coffee",
          EXPECTED_ISSUER, []⟩ 0 =
      Except.error (Failure.auth tokenUnparseableErr) :=
  (C3_other_errors_unparseable ⟨[⟨"RSA", "k1", "sig", "n1", "e1"⟩]⟩
    ⟨true, some "k1", "HS256", true, true, "n1", "e1", 100, "coffee",
      EXPECTED_ISSUER, []⟩ 0 "k1" ⟨"RSA", "k1", "sig", "n1", "e1"⟩
    rfl rfl (by decide) (Or.inr (Or.inl (by decide)))).1

/-- C5: when the token's header parses and declares a key id that no
entry of the fetched key set carries, `verify_decode_jwt` fails with
NoTokenProvided, status 400.  The conclusion holds for every current
time and every body/signature shape of the token, so signature decoding
is never attempted. -/
theorem C5_unknown_kid_no_token_provided (jwks : JWKS) (t : TokenModel) (now : Nat)
    (kid : String)
    (hhdr : t.headerParseable = true) (hkid : t.headerKid = some kid)
    (hnomatch : ∀ k ∈ jwks.keys, k.kid ≠ kid) :
    verify_decode_jwt (Except.ok jwks) t now =
      Except.error (Failure.auth noTokenProvidedErr) ∧
    noTokenProvidedErr.status_code = 400 := by
  refine ⟨?_, rfl⟩
  have hsel : selectKey jwks.keys kid = none := by
    rw [selectKey_eq_last_match, List.find?_eq_none]
    intro k hk
    simpa using hnomatch k (List.mem_reverse.mp hk)
  simp [verify_decode_jwt, getUnverifiedHeader, hhdr, hkid, hsel]

/-- Closed instance of `C5_unknown_kid_no_token_provided`: a key set
whose only entry has a different key id. -/
theorem C5_witness :
    verify_decode_jwt (Except.ok ⟨[⟨"RSA", "other", "sig", "n1", "e1"⟩]⟩)
        ⟨true, some "k1", "RS256", true, true, "n1", "e1", 100, "coffee",
          EXPECTED_ISSUER, []⟩ 5 =
      Except.error (Failure.auth noTokenProvidedErr) :=
  (C5_unknown_kid_no_token_provided ⟨[⟨"RSA", "other", "sig", "n1", "e1"⟩]⟩
    ⟨true, some "k1", "RS256", true, true, "n1", "e1", 100, "coffee",
      EXPECTED_ISSUER, []⟩ 5 "k1" rfl rfl (by decide)).1

/-- C6: for a matched key and a token whose body parses, declares RS256,
and carries a genuine signature under that key, `verify_decode_jwt` fails
with TokenExpired (status 401) exactly when the expiry claim is earlier
than the verifier's current time — and never reports TokenExpired when
`now ≤ exp`, i.e. no clock-skew leeway is applied. -/
theorem C6_expired_token (jwks : JWKS) (t : TokenModel) (now : Nat)
    (kid : String) (key : JWKSKey)
    (hhdr : t.headerParseable = true) (hkid : t.headerKid = some kid)
    (hmatch : selectKey jwks.keys kid = some key)
    (hbody : t.bodyWellFormed = true) (halg : t.alg = "RS256")
    (hsig : t.sigGenuine = true ∧ t.sigN = key.n ∧ t.sigE = key.e) :
    (t.exp < now →
      verify_decode_jwt (Except.ok jwks) t now =
        Except.error (Failure.auth tokenExpiredErr) ∧
      tokenExpiredErr.status_code = 401) ∧
    (now ≤ t.exp →
      verify_decode_jwt (Except.ok jwks) t now ≠
        Except.error (Failure.auth tokenExpiredErr)) := by
  constructor
  · intro hlt
    refine ⟨?_, rfl⟩
    have hdec : jwtDecode t key ALGORITHMS API_AUDIENCE EXPECTED_ISSUER now
        = DecodeOutcome.expired := by
      unfold jwtDecode
      rw [if_neg (not_not_intro hbody),
        if_neg (not_not_intro (show ALGORITHMS.contains t.alg = true by
          rw [halg]; decide)),
        if_neg (not_not_intro hsig), if_pos hlt]
    simp [verify_decode_jwt, getUnverifiedHeader, hhdr, hkid, hmatch, hdec]
  · intro hge
    have hnexp : ¬ t.exp < now := Nat.not_lt.mpr hge
    have hdec : jwtDecode t key ALGORITHMS API_AUDIENCE EXPECTED_ISSUER now
        = (if t.aud ≠ API_AUDIENCE ∨ t.iss ≠ EXPECTED_ISSUER then
            DecodeOutcome.claimsError else DecodeOutcome.ok t.claims) := by
      unfold jwtDecode
      rw [if_neg (not_not_intro hbody),
        if_neg (not_not_intro (show ALGORITHMS.contains t.alg = true by
          rw [halg]; decide)),
        if_neg (not_not_intro hsig), if_neg hnexp]
    by_cases hcl : t.aud ≠ API_AUDIENCE ∨ t.iss ≠ EXPECTED_ISSUER
    · rw [if_pos hcl] at hdec
      have hv : verify_decode_jwt (Except.ok jwks) t now =
          Except.error (Failure.auth claimsInvalidErr) := by
        simp [verify_decode_jwt, getUnverifiedHeader, hhdr, hkid, hmatch, hdec]
      rw [hv]
      intro hcontra
      injection hcontra with h1
      injection h1 with h2
      exact absurd h2 (by decide)
    · rw [if_neg hcl] at hdec
      simp [verify_decode_jwt, getUnverifiedHeader, hhdr, hkid, hmatch, hdec]

/-- Closed instance of `C6_expired_token`: the same token is rejected as
TokenExpired at time 11 (its `exp` is 10) and not rejected as
TokenExpired at time 10. -/
theorem C6_witness :
    verify_decode_jwt (Except.ok ⟨[⟨"RSA", "k1", "sig", "n1", "e1"⟩]⟩)
        ⟨true, some "k1", "RS256", true, true, "n1", "e1", 10, "coffee",
          EXPECTED_ISSUER, []⟩ 11 =
      Except.error (Failure.auth tokenExpiredErr) ∧
    verify_decode_jwt (Except.ok ⟨[⟨"RSA", "k1", "sig", "n1", "e1"⟩]⟩)
        ⟨true, some "k1", "RS256", true, true, "n1", "e1", 10, "coffee",
          EXPECTED_ISSUER, []⟩ 10 ≠
      Except.error (Failure.auth tokenExpiredErr) :=
  ⟨((C6_expired_token ⟨[⟨"RSA", "k1", "sig", "n1", "e1"⟩]⟩
      ⟨true, some "k1", "RS256", true, true, "n1", "e1", 10, "coffee",
        EXPECTED_ISSUER, []⟩ 11 "k1" ⟨"RSA", "k1", "sig", "n1", "e1"⟩
      rfl rfl (by decide) rfl rfl (by decide)).1 (by decide)).1,
    (C6_expired_token ⟨[⟨"RSA", "k1", "sig", "n1", "e1"⟩]⟩
      ⟨true, some "k1", "RS256", true, true, "n1", "e1", 10, "coffee",
        EXPECTED_ISSUER, []⟩ 10 "k1" ⟨"RSA", "k1", "sig", "n1", "e1"⟩
      rfl rfl (by decide) rfl rfl (by decide)).2 (by decide)⟩

/-- C7 counterexample: with a well-formed bearer header and a key-set
fetch that hits a transport error, the flow's failure is the raw,
untagged `URLError` propagating out of `urlopen` — not a tagged
`AuthError` carrying a status code, so no structured KeySetUnavailable
failure exists in the code. -/
theorem C7_counterexample_untagged_transport_error :
    requires_auth "get:drinks-detail"
        (fun _ => ⟨true, some "k1", "RS256", true, true, "n1", "e1", 100, "coffee",
          EXPECTED_ISSUER, []⟩)
        (Except.error ()) 0 (fun _ => (0 : Nat)) (some "Bearer tok") =
      Except.error (Failure.py "URLError") ∧
    isTaggedFailure (requires_auth "get:drinks-detail"
        (fun _ => ⟨true, some "k1", "RS256", true, true, "n1", "e1", 100, "coffee",
          EXPECTED_ISSUER, []⟩)
        (Except.error ()) 0 (fun _ => (0 : Nat)) (some "Bearer tok")) = false := by
  have h : pySplit "Bearer tok" = ["Bearer", "tok"] := by rw [pySplit_eq]; decide
  have hx : get_token_auth_header (some "Bearer tok") = Except.ok "tok" := by
    simp only [get_token_auth_header, h]
    decide
  constructor <;> simp [requires_auth, hx, verify_decode_jwt, isTaggedFailure]

/-- C7 (amended): whenever token extraction succeeds and the key-set
fetch fails with a transport error, the gate's outcome is the propagated
untagged transport exception (surfaced by the framework as a generic
server error, never handled by the `AuthError` handler), and the
protected operation `f` never runs. -/
theorem C7_amended_transport_error_propagates {α : Type} (permission : String)
    (parse : String → TokenModel) (now : Nat) (f : Payload → α)
    (authHeader : Option String) (tok : String)
    (hextract : get_token_auth_header authHeader = Except.ok tok) :
    requires_auth permission parse (Except.error ()) now f authHeader =
      Except.error (Failure.py "URLError") ∧
    isTaggedFailure
      (requires_auth permission parse (Except.error ()) now f authHeader) = false := by
  constructor <;> simp [requires_auth, hextract, verify_decode_jwt, isTaggedFailure]

/-- Closed instance of `C7_amended_transport_error_propagates` at a
concrete header and protected operation. -/
theorem C7_amended_witness :
    requires_auth "post:drinks"
        (fun _ => ⟨true, none, "RS256", true, true, "n", "e", 0, "", "", []⟩)
        (Except.error ()) 7 (fun _ => (1 : Nat)) (some "Bearer abc") =
      Except.error (Failure.py "URLError") := by
  have h : pySplit "Bearer abc" = ["Bearer", "abc"] := by rw [pySplit_eq]; decide
  have hx : get_token_auth_header (some "Bearer abc") = Except.ok "abc" := by
    simp only [get_token_auth_header, h]
    decide
  exact (C7_amended_transport_error_propagates "post:drinks"
    (fun _ => ⟨true, none, "RS256", true, true, "n", "e", 0, "", "", []⟩)
    7 (fun _ => (1 : Nat)) (some "Bearer abc") "abc" hx).1

/-- C8: verification is a pure function of the key set, the token and
the current time; a second run on the same inputs yields the same
VerifiedClaims, with no state shared between runs to mutate. -/
theorem C8_verification_deterministic (fetch : Except Unit JWKS) (t : TokenModel)
    (now : Nat) (payload : Payload)
    (hok : verify_decode_jwt fetch t now = Except.ok payload) :
    verify_decode_jwt fetch t now = Except.ok payload ∧
    ∀ payload2, verify_decode_jwt fetch t now = Except.ok payload2 →
      payload2 = payload := by
  refine ⟨hok, fun payload2 h2 => ?_⟩
  rw [hok] at h2
  injection h2 with h3
  exact h3.symm

/-- Closed instance of `C8_verification_deterministic` at a concrete
valid, unexpired token. -/
theorem C8_witness :
    verify_decode_jwt (Except.ok ⟨[⟨"RSA", "k1", "sig", "n1", "e1"⟩]⟩)
        ⟨true, some "k1", "RS256", true, true, "n1", "e1", 100, "coffee",
          EXPECTED_ISSUER,
          [("permissions", ClaimValue.strList ["get:drinks-detail"])]⟩ 50 =
      Except.ok [("permissions", ClaimValue.strList ["get:drinks-detail"])] :=
  (C8_verification_deterministic (Except.ok ⟨[⟨"RSA", "k1", "sig", "n1", "e1"⟩]⟩)
    ⟨true, some "k1", "RS256", true, true, "n1", "e1", 100, "coffee",
      EXPECTED_ISSUER,
      [("permissions", ClaimValue.strList ["get:drinks-detail"])]⟩ 50
    [("permissions", ClaimValue.strList ["get:drinks-detail"])] (by decide)).1

/-- C10: the key the verifier hands to signature decoding is the last
entry of the key set whose `key_id` equals the token's declared key id
(the matching loop overwrites its accumulator on every match and never
breaks), stated as: `selectKey` equals the last element of the matching
entries, i.e. the first match in the reversed key set. -/
theorem C10_last_matching_key_used (keys : List JWKSKey) (kid : String) :
    selectKey keys kid = (keys.filter (fun k => k.kid == kid)).getLast? := by
  rw [selectKey_eq_last_match, find?_eq_filter_head?, List.filter_reverse,
    List.head?_reverse]

end CoffeeShop
